import Mathlib

/-!
Shallow embedding of the odbc_wrapper repository (src/odbc_wrapper.h,
src/connection_pool.h). Driver calls (SQLGetDiagRec, SQLDriverConnect,
SQLFetch, SQLGetData, SQLAllocHandle, ...) are external collaborators;
their observable responses are passed in as explicit parameters or
oracles, and the wrapper logic is translated function by function from
the C++ source.
-/

namespace Odbc

/-! ## ODBC constants (from sql.h / sqlext.h) -/

def SQL_SUCCESS : Int := 0
def SQL_SUCCESS_WITH_INFO : Int := 1
def SQL_NO_DATA : Int := 100
def SQL_ERROR : Int := -1
def SQL_NULL_DATA : Int := -1
def SQL_NO_TOTAL : Int := -4

/-- SQL_SUCCEEDED(rc) is the macro (((rc) & (~1)) == 0), which holds exactly
for rc = SQL_SUCCESS (0) and rc = SQL_SUCCESS_WITH_INFO (1). -/
def sql_succeeded (r : Int) : Bool :=
  r == SQL_SUCCESS || r == SQL_SUCCESS_WITH_INFO

/-! ## OdbcError and diagnostics (odbc_wrapper.h lines 32-87) -/

/-- struct OdbcError: sql_state, native_error, message. -/
structure OdbcError where
  sql_state : String
  native_error : Int
  message : String
deriving Repr, DecidableEq

/-- The observable response of one SQLGetDiagRec driver call: its return
code and the state/native-code/message it wrote into the output buffers. -/
structure DiagResponse where
  ret : Int
  sql_state : String
  native_error : Int
  message : String
deriving Repr, DecidableEq

/-- get_diagnostic_record (lines 64-82): if SQLGetDiagRec succeeded, package
its outputs as an OdbcError; otherwise return none. -/
def get_diagnostic_record (d : DiagResponse) : Option OdbcError :=
  if sql_succeeded d.ret then
    some ⟨d.sql_state, d.native_error, d.message⟩
  else
    none

/-- A single-quote character, used by the message formats below. -/
def squote : String := String.mk [Char.ofNat 39]

/-- OdbcError::to_string (lines 84-87). -/
def OdbcError.to_string (e : OdbcError) : String :=
  "ODBC Error: SQLSTATE=" ++ e.sql_state ++ ", NativeError=" ++ toString e.native_error
    ++ ", Message=" ++ squote ++ e.message ++ squote

/-! ## Fallible operations on Connection and Statement

Each takes the return code of the underlying driver call and the response
the driver would give to the follow-up SQLGetDiagRec call. -/

/-- Connection::driver_connect (lines 244-262): success when SQL_SUCCEEDED,
else the diagnostic record with the generic fallback substituted. -/
def driver_connect (ret : Int) (d : DiagResponse) : Except OdbcError Unit :=
  if sql_succeeded ret then
    Except.ok ()
  else
    Except.error ((get_diagnostic_record d).getD
      ⟨"HY000", 0, "Unknown connection error via DriverConnect"⟩)

/-- Connection::disconnect (lines 264-277). -/
def disconnect (ret : Int) (d : DiagResponse) : Except OdbcError Unit :=
  if sql_succeeded ret then
    Except.ok ()
  else
    Except.error ((get_diagnostic_record d).getD
      ⟨"HY000", 0, "Unknown disconnection error"⟩)

/-- Statement::execute_direct (lines 307-315). -/
def execute_direct (ret : Int) (d : DiagResponse) : Except OdbcError Unit :=
  if sql_succeeded ret then
    Except.ok ()
  else
    Except.error ((get_diagnostic_record d).getD
      ⟨"HY000", 0, "Unknown execution error"⟩)

/-- Statement::row_count (lines 317-324); count is the value SQLRowCount
wrote into its output parameter. -/
def row_count (ret : Int) (d : DiagResponse) (count : Int) : Except OdbcError Int :=
  if sql_succeeded ret then
    Except.ok count
  else
    Except.error ((get_diagnostic_record d).getD
      ⟨"HY000", 0, "Unknown error getting row count"⟩)

/-- Statement::fetch (lines 327-337): true on SQL_SUCCEEDED, false on
SQL_NO_DATA, otherwise the diagnostic (or generic fallback) error. -/
def fetch (ret : Int) (d : DiagResponse) : Except OdbcError Bool :=
  if sql_succeeded ret then
    Except.ok true
  else if ret == SQL_NO_DATA then
    Except.ok false
  else
    Except.error ((get_diagnostic_record d).getD
      ⟨"HY000", 0, "Unknown fetch error"⟩)

/-! ## Driver cursor model for fetch

The driver statement cursor is an external collaborator; per the fixed call
contract (spec section 6), SQLFetch reports success while rows remain and
SQL_NO_DATA once the result set is exhausted, and an exhausted cursor stays
exhausted. -/

/-- Rows not yet delivered by the driver cursor. -/
structure CursorState where
  remaining : Nat
deriving Repr, DecidableEq

/-- Driver model of SQLFetch on a cursor: success and one row consumed
while rows remain, SQL_NO_DATA (cursor unchanged) once exhausted. -/
def sqlFetchDriver (s : CursorState) : Int × CursorState :=
  if 0 < s.remaining then
    (SQL_SUCCESS, ⟨s.remaining - 1⟩)
  else
    (SQL_NO_DATA, s)

/-- Statement::fetch composed with the driver cursor model. -/
def fetch_step (s : CursorState) (d : DiagResponse) :
    Except OdbcError Bool × CursorState :=
  ((fetch (sqlFetchDriver s).1 d), (sqlFetchDriver s).2)

/-! ## detail::get_string_data (lines 342-372)

One SQLGetData call is modelled by its observable response: the return
code, the length/indicator value, and the bytes the driver left in the
buffer. The driver is an oracle from the buffer size passed in to the
response of the call made with that buffer. -/

/-- Observable response of one SQLGetData call with SQL_C_CHAR. -/
structure GetDataResult where
  ret : Int
  indicator : Int
  data : List Char
deriving Repr, DecidableEq

/-- Driver oracle: the response SQLGetData gives when called with a buffer
of the given size. -/
def GetDataOracle : Type := Nat → GetDataResult

/-- The resize condition of get_string_data line 349:
ret == SQL_SUCCESS_WITH_INFO && indicator > (SQLLEN)(buffer.size() - 1),
with the initial buffer of size 1024. -/
def string_retry_needed (r : GetDataResult) : Bool :=
  r.ret == SQL_SUCCESS_WITH_INFO && decide ((1024 : Int) - 1 < r.indicator)

/-- Lines 354-371: the checks applied to the (ret, indicator, buffer) state
after the potential resize. NULL indicator means NULL whether or not the
return code succeeded; a non-success code otherwise is an error with the
generic fallback; a positive indicator yields that many bytes of the
buffer; otherwise an empty string. -/
def string_data_outcome (r : GetDataResult) (d : DiagResponse) :
    Except OdbcError (Option String) :=
  if !(sql_succeeded r.ret) then
    if r.indicator == SQL_NULL_DATA then
      Except.ok none
    else
      Except.error ((get_diagnostic_record d).getD
        ⟨"HY000", 0, "Unknown GetData<string> error"⟩)
  else if r.indicator == SQL_NULL_DATA then
    Except.ok none
  else if 0 < r.indicator then
    Except.ok (some (String.mk (r.data.take r.indicator.toNat)))
  else
    Except.ok (some "")

/-- Trace of one get_string_data run: its result, how many SQLGetData calls
it made, and the size of the buffer used by the last call. -/
structure StringReadTrace where
  result : Except OdbcError (Option String)
  calls : Nat
  finalBufSize : Nat
deriving Repr

/-- detail::get_string_data (lines 342-372): read into a 1024-byte buffer;
if the resize condition holds, resize to indicator + 1 and read once more;
then apply the final checks. -/
def get_string_data (o : GetDataOracle) (d : DiagResponse) : StringReadTrace :=
  let r1 := o 1024
  if string_retry_needed r1 then
    let n := r1.indicator.toNat + 1
    ⟨string_data_outcome (o n) d, 2, n⟩
  else
    ⟨string_data_outcome r1 d, 1, 1024⟩

/-- The response of the last SQLGetData call get_string_data makes. -/
def final_read (o : GetDataOracle) : GetDataResult :=
  let r1 := o 1024
  if string_retry_needed r1 then o (r1.indicator.toNat + 1) else r1

/-! ## Statement::get_data for numeric types (lines 376-404) -/

/-- Observable response of one fixed-size SQLGetData call (SQL_C_SLONG or
SQL_C_DOUBLE): return code, indicator, and the value written. The double
payload is abstracted to the same value type, since only the control flow
around it is in question. -/
structure NumericRead (α : Type) where
  ret : Int
  indicator : Int
  value : α
deriving Repr, DecidableEq

/-- The shared shape of the two numeric branches of Statement::get_data:
a non-success return is an error (with the branch-specific generic
fallback message) before the indicator is ever consulted; on success a
NULL indicator gives none, else the value. -/
def numeric_get_data {α : Type} (r : NumericRead α) (d : DiagResponse)
    (fallbackMsg : String) : Except OdbcError (Option α) :=
  if !(sql_succeeded r.ret) then
    Except.error ((get_diagnostic_record d).getD ⟨"HY000", 0, fallbackMsg⟩)
  else if r.indicator == SQL_NULL_DATA then
    Except.ok none
  else
    Except.ok (some r.value)

/-- Statement::get_data with T = long (lines 387-391, 399-403). -/
def get_data_long (r : NumericRead Int) (d : DiagResponse) :
    Except OdbcError (Option Int) :=
  numeric_get_data r d "Unknown GetData<long> error"

/-- Statement::get_data with T = double (lines 392-403). -/
def get_data_double (r : NumericRead Int) (d : DiagResponse) :
    Except OdbcError (Option Int) :=
  numeric_get_data r d "Unknown GetData<double> error"

/-! ## Handle construction (Environment / Connection / Statement ctors) -/

/-- Observable responses of the two driver calls made by Environment's
constructor: SQLAllocHandle (its return code and the handle it yields)
and SQLSetEnvAttr. -/
structure EnvCtorDriver where
  alloc_ret : Int
  alloc_handle : Nat
  set_attr_ret : Int
deriving Repr, DecidableEq

/-- Environment::Environment (lines 166-175). Result: either the thrown
OdbcSetupError message, or the value of m_handle after construction;
paired with the list of native handles freed during construction (the
allocated handle is freed before the throw when SQLSetEnvAttr fails). -/
def environment_construct (d : EnvCtorDriver) :
    Except String (Option Nat) × List Nat :=
  if !(sql_succeeded d.alloc_ret) then
    (Except.error "ODBC: Failed to allocate environment handle.", [])
  else if !(sql_succeeded d.set_attr_ret) then
    (Except.error "ODBC: Failed to set environment attribute to ODBC 3.0.", [d.alloc_handle])
  else
    (Except.ok (some d.alloc_handle), [])

/-- Connection::Connection(const Environment&) (lines 199-203): allocates
from the parent environment, throwing on failure. -/
def connection_construct (alloc_ret : Int) (alloc_handle : Nat) :
    Except String (Option Nat) :=
  if !(sql_succeeded alloc_ret) then
    Except.error "ODBC: Failed to allocate connection handle."
  else
    Except.ok (some alloc_handle)

/-- Statement::Statement(const Connection&) (lines 280-284). -/
def statement_construct (alloc_ret : Int) (alloc_handle : Nat) :
    Except String (Option Nat) :=
  if !(sql_succeeded alloc_ret) then
    Except.error "ODBC: Failed to allocate statement handle."
  else
    Except.ok (some alloc_handle)

/-! ## Move semantics and release (the move ctors / operator= / dtors)

A handle object is its m_handle member: some h when it owns native handle
h, none when empty (nullptr). Releasing returns the list of native handles
freed, so release-exactly-once is observable. -/

/-- The destructor body shared by all three wrappers: free the native
handle if non-null, else do nothing (lines 177-181, 205-226, 286-290). -/
def free_handle (h : Option Nat) : List Nat :=
  match h with
  | none => []
  | some v => [v]

/-- Move construction (lines 183-184, 228-229, 292-293):
m_handle(std::exchange(other.m_handle, nullptr)). Returns (the new
object's handle, the moved-from source's handle). -/
def move_construct (src : Option Nat) : Option Nat × Option Nat :=
  (src, none)

/-- Move assignment between distinct objects (lines 186-194, 231-240,
295-303): free the target's current handle, then take the source's and
null it. Returns ((target's new handle, source's new handle), the native
handles freed by the assignment). -/
def move_assign (target src : Option Nat) : (Option Nat × Option Nat) × List Nat :=
  ((src, none), free_handle target)

/-! ## ThreadLocalConnectionPool (connection_pool.h lines 47-107)

The per-thread pool state is the alias-to-Connection map; Connection
instances are identified by the order of their creation in this pool
(nextId). The driver connect attempt is an oracle from the connection
string to the result Connection::driver_connect would give. -/

/-- ConnectionPoolError: a distinct error type carrying a message. -/
structure PoolError where
  message : String
deriving Repr, DecidableEq

/-- The message built at connection_pool.h line 95. -/
def pool_error_message (aName : String) (e : OdbcError) : String :=
  "Failed to establish connection for alias " ++ squote ++ aName ++ squote
    ++ ": " ++ e.to_string

/-- The pool's per-thread state: the connections_ map (as an association
list ordered by insertion) and the id the next created Connection gets. -/
structure PoolState where
  connections : List (String × Nat)
  nextId : Nat
deriving Repr, DecidableEq

/-- Outcome of one getConnection call: the pool state afterwards, the
returned Connection (or the thrown ConnectionPoolError), and how many
driver connect attempts were made. -/
structure PoolStep where
  state : PoolState
  result : Except PoolError Nat
  driverCalls : Nat
deriving Repr

/-- ThreadLocalConnectionPool::getConnection (lines 77-106): look the alias
up; on a hit return the cached Connection with no driver call and no state
change; on a miss create a Connection, attempt driver_connect with the
supplied string, and either throw a ConnectionPoolError (map unchanged) or
emplace the new Connection under the alias and return it. -/
def getConnection (connect : String → Except OdbcError Unit) (st : PoolState)
    (aName connStr : String) : PoolStep :=
  match st.connections.lookup aName with
  | some c => ⟨st, Except.ok c, 0⟩
  | none =>
    match connect connStr with
    | Except.error e => ⟨st, Except.error ⟨pool_error_message aName e⟩, 1⟩
    | Except.ok _ =>
      ⟨⟨st.connections ++ [(aName, st.nextId)], st.nextId + 1⟩,
        Except.ok st.nextId, 1⟩

/-! ## Concrete driver responses used by witnesses -/

/-- A driver response whose SQLGetDiagRec call succeeds with a record. -/
def sampleDiag : DiagResponse :=
  ⟨SQL_SUCCESS, "08001", 5, "client unable to establish connection"⟩

/-- A driver response whose SQLGetDiagRec call itself fails, so that
get_diagnostic_record yields none. -/
def emptyDiag : DiagResponse := ⟨SQL_ERROR, "", 0, ""⟩

/-- An SQLGetData oracle that reports failure with the NULL indicator set
at every buffer size. -/
def nullOracle : GetDataOracle := fun _ => ⟨SQL_ERROR, SQL_NULL_DATA, []⟩

/-! ## Supporting lemmas -/

/-- The result of get_string_data is the outcome of the final read. -/
theorem get_string_data_result_eq (o : GetDataOracle) (d : DiagResponse) :
    (get_string_data o d).result = string_data_outcome (final_read o) d := by
  unfold get_string_data final_read
  rcases hr : string_retry_needed (o 1024) <;> simp [hr]

/-- A NULL indicator on a read makes its outcome NULL for both the
success and the non-success return-code branch. -/
theorem string_data_outcome_of_null (r : GetDataResult) (d : DiagResponse)
    (h : r.indicator = SQL_NULL_DATA) :
    string_data_outcome r d = Except.ok none := by
  rcases hb : sql_succeeded r.ret <;> simp [string_data_outcome, hb, h]

/-! ## Claim theorems -/

/-- C4: for every text column read via get_data with T = string, a NULL
column value is recognized as NULL regardless of the return code of the
(possibly retried) SQLGetData call: whenever the final read carries the
NULL indicator, the result is ok-none — never an error and never a second
distinct outcome. -/
theorem string_null_indicator_yields_null (o : GetDataOracle) (d : DiagResponse)
    (h : (final_read o).indicator = SQL_NULL_DATA) :
    (get_string_data o d).result = Except.ok none := by
  rw [get_string_data_result_eq]
  exact string_data_outcome_of_null _ _ h

theorem string_null_indicator_yields_null_witness :
    (get_string_data nullOracle sampleDiag).result = Except.ok none :=
  string_null_indicator_yields_null nullOracle sampleDiag (by decide)

/-- C5: fetch returns true exactly on a success return code, false exactly
on SQL_NO_DATA, and an error otherwise; composed with the driver cursor
contract, an exhausted cursor keeps returning false with the cursor
unchanged, so every subsequent fetch stays at false (idempotent terminal
state). -/
theorem fetch_tristate_and_terminal (ret : Int) (d : DiagResponse) (s : CursorState) :
    (sql_succeeded ret = true → fetch ret d = Except.ok true) ∧
    (ret = SQL_NO_DATA → fetch ret d = Except.ok false) ∧
    (sql_succeeded ret = false → ret ≠ SQL_NO_DATA →
      fetch ret d = Except.error ((get_diagnostic_record d).getD
        ⟨"HY000", 0, "Unknown fetch error"⟩)) ∧
    (s.remaining = 0 → fetch_step s d = (Except.ok false, s)) := by
  refine ⟨fun h => by simp [fetch, h], fun h => ?_, fun h1 h2 => ?_, fun h => ?_⟩
  · subst h
    simp [fetch, sql_succeeded, SQL_NO_DATA, SQL_SUCCESS, SQL_SUCCESS_WITH_INFO]
  · simp [fetch, h1, h2]
  · have hs : sqlFetchDriver s = (SQL_NO_DATA, s) := by
      simp [sqlFetchDriver, h]
    simp [fetch_step, hs, fetch, sql_succeeded, SQL_NO_DATA, SQL_SUCCESS,
      SQL_SUCCESS_WITH_INFO]

theorem fetch_tristate_and_terminal_witness :
    fetch SQL_SUCCESS sampleDiag = Except.ok true ∧
    fetch SQL_NO_DATA sampleDiag = Except.ok false ∧
    fetch SQL_ERROR emptyDiag = Except.error ⟨"HY000", 0, "Unknown fetch error"⟩ ∧
    fetch_step ⟨0⟩ sampleDiag = (Except.ok false, ⟨0⟩) :=
  ⟨(fetch_tristate_and_terminal SQL_SUCCESS sampleDiag ⟨0⟩).1 (by decide),
   (fetch_tristate_and_terminal SQL_NO_DATA sampleDiag ⟨0⟩).2.1 rfl,
   (fetch_tristate_and_terminal SQL_ERROR emptyDiag ⟨0⟩).2.2.1 (by decide) (by decide),
   (fetch_tristate_and_terminal SQL_ERROR sampleDiag ⟨0⟩).2.2.2 rfl⟩

/-- C6: for every fallible operation (connect, disconnect, execute, fetch,
row-count, column reads), when the operation fails and diagnostics
retrieval yields no record, the returned error is exactly the fixed
generic record with state HY000, native code 0, and an
operation-identifying message — the failure is never turned into a
success. -/
theorem generic_fallback_error_on_missing_diag (ret : Int) (d : DiagResponse)
    (hfail : sql_succeeded ret = false)
    (hnod : get_diagnostic_record d = none) :
    driver_connect ret d =
      Except.error ⟨"HY000", 0, "Unknown connection error via DriverConnect"⟩ ∧
    disconnect ret d = Except.error ⟨"HY000", 0, "Unknown disconnection error"⟩ ∧
    execute_direct ret d = Except.error ⟨"HY000", 0, "Unknown execution error"⟩ ∧
    (∀ c : Int, row_count ret d c =
      Except.error ⟨"HY000", 0, "Unknown error getting row count"⟩) ∧
    (ret ≠ SQL_NO_DATA →
      fetch ret d = Except.error ⟨"HY000", 0, "Unknown fetch error"⟩) ∧
    (∀ g : GetDataResult, g.ret = ret → g.indicator ≠ SQL_NULL_DATA →
      string_data_outcome g d =
        Except.error ⟨"HY000", 0, "Unknown GetData<string> error"⟩) ∧
    (∀ r : NumericRead Int, r.ret = ret →
      get_data_long r d = Except.error ⟨"HY000", 0, "Unknown GetData<long> error"⟩ ∧
      get_data_double r d =
        Except.error ⟨"HY000", 0, "Unknown GetData<double> error"⟩) := by
  refine ⟨by simp [driver_connect, hfail, hnod],
    by simp [disconnect, hfail, hnod],
    by simp [execute_direct, hfail, hnod],
    fun c => by simp [row_count, hfail, hnod],
    fun hnd => by simp [fetch, hfail, hnod, hnd],
    fun g hg hni => by simp [string_data_outcome, hg, hfail, hnod, hni],
    fun r hr => ⟨by simp [get_data_long, numeric_get_data, hr, hfail, hnod],
      by simp [get_data_double, numeric_get_data, hr, hfail, hnod]⟩⟩

theorem generic_fallback_error_on_missing_diag_witness :
    driver_connect SQL_ERROR emptyDiag =
      Except.error ⟨"HY000", 0, "Unknown connection error via DriverConnect"⟩ ∧
    string_data_outcome ⟨SQL_ERROR, 3, []⟩ emptyDiag =
      Except.error ⟨"HY000", 0, "Unknown GetData<string> error"⟩ ∧
    get_data_long ⟨SQL_ERROR, SQL_NULL_DATA, 7⟩ emptyDiag =
      Except.error ⟨"HY000", 0, "Unknown GetData<long> error"⟩ :=
  ⟨(generic_fallback_error_on_missing_diag SQL_ERROR emptyDiag (by decide)
      (by decide)).1,
   (generic_fallback_error_on_missing_diag SQL_ERROR emptyDiag (by decide)
      (by decide)).2.2.2.2.2.1 ⟨SQL_ERROR, 3, []⟩ rfl (by decide),
   ((generic_fallback_error_on_missing_diag SQL_ERROR emptyDiag (by decide)
      (by decide)).2.2.2.2.2.2 ⟨SQL_ERROR, SQL_NULL_DATA, 7⟩ rfl).1⟩

/-- C7: for every handle wrapper, a move transfers exclusive ownership of
the native resource and leaves the moved-from object empty;
move-assignment first releases whatever the target owned; releasing an
empty handle is a no-op; and through construction-move-destruction or
assignment each native resource is released exactly once. -/
theorem move_semantics_release_exactly_once (h t s : Option Nat) :
    (move_construct h).1 = h ∧
    (move_construct h).2 = none ∧
    (move_assign t s).1.1 = s ∧
    (move_assign t s).1.2 = none ∧
    (move_assign t s).2 = free_handle t ∧
    free_handle (none : Option Nat) = [] ∧
    free_handle (move_construct h).2 ++ free_handle (move_construct h).1 =
      free_handle h ∧
    (move_assign t s).2 ++ free_handle (move_assign t s).1.1 ++
      free_handle (move_assign t s).1.2 = free_handle t ++ free_handle s := by
  refine ⟨rfl, rfl, rfl, rfl, rfl, rfl, rfl, ?_⟩
  simp [move_assign, free_handle]

/-- C9: for the numeric accessors (T = long and T = double), the NULL
indicator is consulted only after a successful driver call: a non-success
return code is an error even when the indicator is set (for any indicator
value, SQL_NULL_DATA included); on success a NULL indicator gives none —
unlike the text path, where a failure code with the NULL indicator set
yields NULL. -/
theorem numeric_null_only_after_success (r : NumericRead Int) (d : DiagResponse) :
    (sql_succeeded r.ret = false →
      get_data_long r d = Except.error ((get_diagnostic_record d).getD
        ⟨"HY000", 0, "Unknown GetData<long> error"⟩) ∧
      get_data_double r d = Except.error ((get_diagnostic_record d).getD
        ⟨"HY000", 0, "Unknown GetData<double> error"⟩)) ∧
    (sql_succeeded r.ret = true → r.indicator = SQL_NULL_DATA →
      get_data_long r d = Except.ok none ∧
      get_data_double r d = Except.ok none) ∧
    (sql_succeeded r.ret = false →
      string_data_outcome ⟨r.ret, SQL_NULL_DATA, []⟩ d = Except.ok none) := by
  refine ⟨fun h => ⟨by simp [get_data_long, numeric_get_data, h],
      by simp [get_data_double, numeric_get_data, h]⟩,
    fun hs hn => ⟨by simp [get_data_long, numeric_get_data, hs, hn],
      by simp [get_data_double, numeric_get_data, hs, hn]⟩,
    fun _ => string_data_outcome_of_null _ _ rfl⟩

theorem numeric_null_only_after_success_witness :
    get_data_long ⟨SQL_ERROR, SQL_NULL_DATA, 0⟩ sampleDiag =
      Except.error ⟨"08001", 5, "client unable to establish connection"⟩ ∧
    get_data_long ⟨SQL_SUCCESS, SQL_NULL_DATA, 0⟩ sampleDiag = Except.ok none ∧
    string_data_outcome ⟨SQL_ERROR, SQL_NULL_DATA, []⟩ sampleDiag = Except.ok none :=
  ⟨((numeric_null_only_after_success ⟨SQL_ERROR, SQL_NULL_DATA, 0⟩ sampleDiag).1
      (by decide)).1,
   ((numeric_null_only_after_success ⟨SQL_SUCCESS, SQL_NULL_DATA, 0⟩ sampleDiag).2.1
      (by decide) rfl).1,
   (numeric_null_only_after_success ⟨SQL_ERROR, SQL_NULL_DATA, 0⟩ sampleDiag).2.2
      (by decide)⟩

/-- C10: for every successful non-NULL text read, a positive indicator
yields exactly that many bytes taken from the buffer, and a zero or other
non-positive non-NULL indicator yields a present empty string — a value,
distinct from the NULL outcome. -/
theorem string_present_value_semantics (o : GetDataOracle) (d : DiagResponse)
    (hs : sql_succeeded (final_read o).ret = true)
    (hn : (final_read o).indicator ≠ SQL_NULL_DATA) :
    (get_string_data o d).result = Except.ok (some
      (if 0 < (final_read o).indicator then
        String.mk ((final_read o).data.take (final_read o).indicator.toNat)
      else "")) ∧
    (0 < (final_read o).indicator →
      (final_read o).indicator.toNat ≤ (final_read o).data.length →
      ∃ s, (get_string_data o d).result = Except.ok (some s) ∧
        s.length = (final_read o).indicator.toNat) := by
  constructor
  · rw [get_string_data_result_eq]
    by_cases hpos : 0 < (final_read o).indicator
    · simp [string_data_outcome, hs, hn, hpos]
    · simp [string_data_outcome, hs, hn, hpos]
  · intro hpos hle
    rw [get_string_data_result_eq]
    refine ⟨String.mk ((final_read o).data.take (final_read o).indicator.toNat),
      by simp [string_data_outcome, hs, hn, hpos], ?_⟩
    show ((final_read o).data.take (final_read o).indicator.toNat).length = _
    rw [List.length_take]
    exact Nat.min_eq_left hle

/-- An oracle describing a successful single read of a three-byte value
into the initial buffer. -/
def presentOracle : GetDataOracle := fun _ =>
  ⟨SQL_SUCCESS, 3, ['a', 'b', 'c', 'd']⟩

theorem string_present_value_semantics_witness :
    (get_string_data presentOracle sampleDiag).result =
      Except.ok (some (String.mk ['a', 'b', 'c'])) ∧
    ∃ s, (get_string_data presentOracle sampleDiag).result =
      Except.ok (some s) ∧ s.length = 3 :=
  ⟨(string_present_value_semantics presentOracle sampleDiag (by decide) (by decide)).1,
   (string_present_value_semantics presentOracle sampleDiag (by decide)
      (by decide)).2 (by decide) (by decide)⟩

/-- An oracle whose initial 1024-byte read reports success-with-info and a
required length of 1100, and whose resized (1101-byte) read again reports
success-with-info with a still larger required length 1300: the resized
buffer is again reported too small. -/
def truncOracle : GetDataOracle := fun n =>
  if n = 1024 then ⟨SQL_SUCCESS_WITH_INFO, 1100, ['a', 'b']⟩
  else ⟨SQL_SUCCESS_WITH_INFO, 1300, ['a', 'b', 'c']⟩

/-- C2 counterexample: when the resized read is still reported too small
(success-with-info, indicator 1300 exceeding the resized capacity 1100),
the result is not a hard error: SQL_SUCCESS_WITH_INFO passes the
SQL_SUCCEEDED final check and the truncated buffer contents are returned
as a present value. -/
theorem string_second_read_truncated_not_error :
    string_retry_needed (truncOracle 1024) = true ∧
    (final_read truncOracle).ret = SQL_SUCCESS_WITH_INFO ∧
    (final_read truncOracle).indicator = 1300 ∧
    (get_string_data truncOracle sampleDiag).calls = 2 ∧
    (get_string_data truncOracle sampleDiag).finalBufSize = 1101 ∧
    (get_string_data truncOracle sampleDiag).result =
      Except.ok (some (String.mk ['a', 'b', 'c'])) := by
  refine ⟨by decide, by decide, by decide, rfl, rfl, rfl⟩

/-- C2 (amended): at most one buffer resize-and-retry is performed: at
most two SQLGetData calls; the second happens exactly when the first
reports SQL_SUCCESS_WITH_INFO with an indicated length exceeding the
initial buffer's 1023-byte string capacity, and then the buffer is
resized to exactly indicator + 1 and the read repeated once with no
further retry; after the at-most-one retry, a non-success return code
with the NULL indicator unset is a hard error, while any success code —
including success-with-info still reporting truncation — yields the
buffer contents as the value. -/
theorem get_string_data_single_retry (o : GetDataOracle) (d : DiagResponse) :
    (get_string_data o d).calls ≤ 2 ∧
    ((get_string_data o d).calls = 2 ↔
      ((o 1024).ret = SQL_SUCCESS_WITH_INFO ∧ 1023 < (o 1024).indicator)) ∧
    ((o 1024).ret = SQL_SUCCESS_WITH_INFO → 1023 < (o 1024).indicator →
      (get_string_data o d).finalBufSize = (o 1024).indicator.toNat + 1 ∧
      (get_string_data o d).result =
        string_data_outcome (o ((o 1024).indicator.toNat + 1)) d) ∧
    (¬((o 1024).ret = SQL_SUCCESS_WITH_INFO ∧ 1023 < (o 1024).indicator) →
      (get_string_data o d).calls = 1 ∧
      (get_string_data o d).finalBufSize = 1024 ∧
      (get_string_data o d).result = string_data_outcome (o 1024) d) ∧
    (sql_succeeded (final_read o).ret = false →
      (final_read o).indicator ≠ SQL_NULL_DATA →
      ∃ e, (get_string_data o d).result = Except.error e) := by
  have hiff : string_retry_needed (o 1024) = true ↔
      ((o 1024).ret = SQL_SUCCESS_WITH_INFO ∧ 1023 < (o 1024).indicator) := by
    simp [string_retry_needed]
  have herr : sql_succeeded (final_read o).ret = false →
      (final_read o).indicator ≠ SQL_NULL_DATA →
      ∃ e, (get_string_data o d).result = Except.error e := by
    intro hf hn
    rw [get_string_data_result_eq]
    exact ⟨(get_diagnostic_record d).getD
        ⟨"HY000", 0, "Unknown GetData<string> error"⟩,
      by simp [string_data_outcome, hf, hn]⟩
  rcases hr : string_retry_needed (o 1024) with _ | _
  · have hne : ¬((o 1024).ret = SQL_SUCCESS_WITH_INFO ∧
        1023 < (o 1024).indicator) := by
      intro hc
      simp [hiff.mpr hc] at hr
    refine ⟨?_, ?_, ?_, ?_, herr⟩
    · simp [get_string_data, hr]
    · simp [get_string_data, hr, hne]
    · intro h1 h2
      exact absurd ⟨h1, h2⟩ hne
    · intro _
      refine ⟨?_, ?_, ?_⟩ <;> simp [get_string_data, hr]
  · have hc := hiff.mp hr
    refine ⟨?_, ?_, ?_, ?_, herr⟩
    · simp [get_string_data, hr]
    · simp [get_string_data, hr, hc]
    · intro _ _
      constructor <;> simp [get_string_data, hr]
    · intro hn
      exact absurd hc hn

/-- An oracle that needs one resize and then fails hard on the resized
read. -/
def retryErrOracle : GetDataOracle := fun n =>
  if n = 1024 then ⟨SQL_SUCCESS_WITH_INFO, 1100, ['a']⟩
  else ⟨SQL_ERROR, 0, []⟩

theorem get_string_data_single_retry_witness :
    (get_string_data retryErrOracle emptyDiag).calls ≤ 2 ∧
    (get_string_data retryErrOracle emptyDiag).finalBufSize = 1101 ∧
    ∃ e, (get_string_data retryErrOracle emptyDiag).result = Except.error e :=
  ⟨(get_string_data_single_retry retryErrOracle emptyDiag).1,
   ((get_string_data_single_retry retryErrOracle emptyDiag).2.2.1
      (by decide) (by decide)).1,
   (get_string_data_single_retry retryErrOracle emptyDiag).2.2.2.2
      (by decide) (by decide)⟩

/-- Appending a binding for a key absent from an association list makes
lookup of that key find the appended value. -/
theorem lookup_append_fresh (l : List (String × Nat)) (a : String) (v : Nat)
    (h : l.lookup a = none) : (l ++ [(a, v)]).lookup a = some v := by
  induction l with
  | nil => simp [List.lookup]
  | cons p tl ih =>
    obtain ⟨k, w⟩ := p
    rcases hk : a == k with _ | _
    · simp only [List.lookup, hk, List.cons_append] at h ⊢
      exact ih h
    · simp [List.lookup, hk] at h

/-- C1: for every alias and connection strings S1 and S2 (equal or not),
once getConnection has returned a Connection for the alias, a second
getConnection with any connection string returns the same Connection,
leaves the cache state unchanged, and makes no driver connect call: the
alias, not the connection string, is the cache key. -/
theorem pool_cache_hit_ignores_connection_string
    (connect : String → Except OdbcError Unit) (st : PoolState)
    (aName s1 s2 : String) (st2 : PoolState) (c k : Nat)
    (h : getConnection connect st aName s1 = ⟨st2, Except.ok c, k⟩) :
    getConnection connect st2 aName s2 = ⟨st2, Except.ok c, 0⟩ := by
  have hlook : st2.connections.lookup aName = some c := by
    rcases hl : st.connections.lookup aName with _ | c0
    · rcases hc : connect s1 with e | u
      · simp [getConnection, hl, hc] at h
      · simp [getConnection, hl, hc] at h
        obtain ⟨h1, h2, _⟩ := h
        subst h1
        subst h2
        exact lookup_append_fresh st.connections aName st.nextId hl
    · simp [getConnection, hl] at h
      obtain ⟨h1, h2, _⟩ := h
      subst h1
      subst h2
      exact hl
  simp [getConnection, hlook]

/-- A driver whose connect attempt always succeeds. -/
def alwaysOkConnect : String → Except OdbcError Unit := fun _ => Except.ok ()

theorem pool_cache_hit_ignores_connection_string_witness :
    getConnection alwaysOkConnect ⟨[("DB1", 0)], 1⟩ "DB1" "ConnStringB" =
      ⟨⟨[("DB1", 0)], 1⟩, Except.ok 0, 0⟩ :=
  pool_cache_hit_ignores_connection_string alwaysOkConnect ⟨[], 0⟩ "DB1"
    "ConnStringA" "ConnStringB" ⟨[("DB1", 0)], 1⟩ 0 1 rfl

/-- C3: when the alias is absent and the driver connect attempt fails,
getConnection raises the pool-specific ConnectionPoolError wrapping the
alias and the diagnostic's to_string, and the cache state is returned
unchanged with the alias still absent — so a subsequent call for the same
alias with a string the driver accepts succeeds and caches normally. -/
theorem pool_connect_failure_leaves_alias_absent
    (connect : String → Except OdbcError Unit) (st : PoolState)
    (aName s s2 : String) (e : OdbcError)
    (habs : st.connections.lookup aName = none)
    (hfail : connect s = Except.error e)
    (hok : connect s2 = Except.ok ()) :
    getConnection connect st aName s =
      ⟨st, Except.error ⟨pool_error_message aName e⟩, 1⟩ ∧
    pool_error_message aName e =
      "Failed to establish connection for alias " ++ squote ++ aName ++ squote
        ++ ": " ++ e.to_string ∧
    getConnection connect st aName s2 =
      ⟨⟨st.connections ++ [(aName, st.nextId)], st.nextId + 1⟩,
        Except.ok st.nextId, 1⟩ := by
  refine ⟨by simp [getConnection, habs, hfail], rfl,
    by simp [getConnection, habs, hok]⟩

/-- A driver that accepts exactly one connection string. -/
def badStringConnect : String → Except OdbcError Unit := fun s =>
  if s = "GoodString" then Except.ok ()
  else Except.error ⟨"08001", 0, "invalid connection string"⟩

theorem pool_connect_failure_leaves_alias_absent_witness :
    getConnection badStringConnect ⟨[], 0⟩ "DB1" "BadString" =
      ⟨⟨[], 0⟩, Except.error ⟨pool_error_message "DB1"
        ⟨"08001", 0, "invalid connection string"⟩⟩, 1⟩ ∧
    getConnection badStringConnect ⟨[], 0⟩ "DB1" "GoodString" =
      ⟨⟨[("DB1", 0)], 1⟩, Except.ok 0, 1⟩ :=
  ⟨(pool_connect_failure_leaves_alias_absent badStringConnect ⟨[], 0⟩ "DB1"
      "BadString" "GoodString" ⟨"08001", 0, "invalid connection string"⟩
      rfl rfl rfl).1,
   (pool_connect_failure_leaves_alias_absent badStringConnect ⟨[], 0⟩ "DB1"
      "BadString" "GoodString" ⟨"08001", 0, "invalid connection string"⟩
      rfl rfl rfl).2.2⟩

/-- C8 counterexample: Environment's zero-argument (default) constructor
does not construct the empty no-handle state: with a driver whose
handle allocation succeeds yielding native handle 5 and whose
version-attribute call succeeds, construction completes with
m_handle = some 5, which is not the empty state none. -/
theorem environment_default_construct_not_empty :
    (environment_construct ⟨SQL_SUCCESS, 5, SQL_SUCCESS⟩).1 =
      Except.ok (some 5) ∧
    (Except.ok (some 5) : Except String (Option Nat)) ≠ Except.ok none := by
  refine ⟨rfl, fun hc => ?_⟩
  injection hc with hc
  cases hc

/-- C8 (amended): every handle type constructs only to a non-empty state:
each constructor raises a setup failure naming the failing step when the
underlying allocation (or, for Environment, the version-attribute
initialization) fails, and otherwise yields an object owning the
allocated native handle; the empty (no-handle) state, usable only as a
move target, is the moved-from state, whose release is a no-op;
Environment frees the allocated handle before raising when the
version-attribute step fails. -/
theorem handle_construction_and_empty_state (d : EnvCtorDriver) (r : Int)
    (hd : Nat) (h : Option Nat) :
    (sql_succeeded d.alloc_ret = false →
      environment_construct d =
        (Except.error "ODBC: Failed to allocate environment handle.", [])) ∧
    (sql_succeeded d.alloc_ret = true → sql_succeeded d.set_attr_ret = false →
      environment_construct d =
        (Except.error "ODBC: Failed to set environment attribute to ODBC 3.0.",
          [d.alloc_handle])) ∧
    (sql_succeeded d.alloc_ret = true → sql_succeeded d.set_attr_ret = true →
      environment_construct d = (Except.ok (some d.alloc_handle), [])) ∧
    (sql_succeeded r = false →
      connection_construct r hd =
        Except.error "ODBC: Failed to allocate connection handle." ∧
      statement_construct r hd =
        Except.error "ODBC: Failed to allocate statement handle.") ∧
    (sql_succeeded r = true →
      connection_construct r hd = Except.ok (some hd) ∧
      statement_construct r hd = Except.ok (some hd)) ∧
    (move_construct h).2 = none ∧
    free_handle (move_construct h).2 = [] := by
  refine ⟨fun h1 => by simp [environment_construct, h1],
    fun h1 h2 => by simp [environment_construct, h1, h2],
    fun h1 h2 => by simp [environment_construct, h1, h2],
    fun h1 => ⟨by simp [connection_construct, h1],
      by simp [statement_construct, h1]⟩,
    fun h1 => ⟨by simp [connection_construct, h1],
      by simp [statement_construct, h1]⟩,
    rfl, rfl⟩

theorem handle_construction_and_empty_state_witness :
    environment_construct ⟨SQL_ERROR, 5, SQL_SUCCESS⟩ =
      (Except.error "ODBC: Failed to allocate environment handle.", []) ∧
    environment_construct ⟨SQL_SUCCESS, 5, SQL_SUCCESS⟩ =
      (Except.ok (some 5), []) ∧
    connection_construct SQL_SUCCESS 7 = Except.ok (some 7) :=
  ⟨(handle_construction_and_empty_state ⟨SQL_ERROR, 5, SQL_SUCCESS⟩ 0 0
      none).1 (by decide),
   (handle_construction_and_empty_state ⟨SQL_SUCCESS, 5, SQL_SUCCESS⟩ 0 0
      none).2.2.1 (by decide) (by decide),
   ((handle_construction_and_empty_state ⟨SQL_SUCCESS, 5, SQL_SUCCESS⟩
      SQL_SUCCESS 7 none).2.2.2.2.1 (by decide)).1⟩

end Odbc
